/-
  Verification of the Analytics Aggregation Engine of the
  Personal-Finance-Visualizer repository (server/routes/analytics.js),
  as a shallow embedding in Lean 4.

  Modelling conventions:
  * Money amounts are rationals (`ℚ`); JavaScript numbers are modelled
    exactly on the rational inputs the claims use.
  * Dates are calendar days `(year, month, day)`; times of day are
    abstracted away (every MongoDB date filter in the engine is a whole
    month or a whole year range, or a `≤ now` cutoff, all of which are
    decided at day granularity here).
  * MongoDB ObjectIds are modelled as `Nat`.
  * A MongoDB `$group` result is a list of `(key, sum)` pairs, one per
    distinct key, in first-occurrence order of the key (the server then
    either sorts the groups or consumes them by key lookup, so this
    determinization is observationally faithful).
  * A thrown JavaScript `TypeError` (accessing `._id` on the `null` left
    by a failed `populate`) is modelled by `Option`: `none` is the raise.
  * `Number.prototype.toFixed` in the HTTP layer is display formatting
    and is not part of the computed metrics modelled here.
-/
import Mathlib

namespace FinanceViz

/-- Transaction `type` enum of the Mongoose schema (`expense` is the
schema default). -/
inductive TxType where
  | expense
  | income
deriving DecidableEq, Repr

/-- A calendar day.  `month` is 1-based (1..12), `day` is 1-based; a
date produced by a JavaScript `Date` always has `1 ≤ day`. -/
structure CalDate where
  year : Nat
  month : Nat
  day : Nat
deriving DecidableEq, Repr

/-- Lexicographic order on calendar days, matching MongoDB date
comparison at day granularity. -/
def dateLE (a b : CalDate) : Bool :=
  decide (a.year < b.year) ||
    (decide (a.year = b.year) &&
      (decide (a.month < b.month) ||
        (decide (a.month = b.month) && decide (a.day ≤ b.day))))

/-- The Transaction document per `models/Transaction.js`: `amount`
(signed number), `description`, `date`, `type` (enum, default
`expense`), `categoryId` (optional ref to Category), `paymentMethod`,
`notes`.  Note the schema defines `categoryId` and **no** field named
`category`. -/
structure Transaction where
  amount : ℚ
  description : String
  date : CalDate
  type : TxType
  categoryId : Option Nat
  paymentMethod : String
  notes : String
deriving DecidableEq, Repr

/-- The Category document per `models/Category.js`. -/
structure Category where
  id : Nat
  name : String
  color : String
  icon : String
  type : String
  isDefault : Bool
deriving DecidableEq, Repr

/-- The Budget document per `models/Budget.js`: `categoryId` (required
ref), `amount` (min 0), `month` (1..12), `year`. -/
structure Budget where
  id : Nat
  categoryId : Nat
  amount : ℚ
  month : Nat
  year : Nat
  notes : String
deriving DecidableEq, Repr

/-! ### GET /monthly-summary (analytics.js lines 17-104) -/

/-- One element of a month group's `data` array:
`{ type, amount }`. -/
structure TypeAmount where
  type : TxType
  amount : ℚ
deriving DecidableEq, Repr

/-- One element of the `fullYearData` response:
`{ month, data }`. -/
structure MonthEntry where
  month : Nat
  data : List TypeAmount
deriving DecidableEq, Repr

/-- The `$match` stage of the monthly-summary pipeline: the date filter
`$gte year-01-01, $lte year-12-31` keeps exactly the transactions of
`year` (at day granularity). -/
def inYear (year : Nat) (t : Transaction) : Bool :=
  decide (t.date.year = year)

/-- The `$group {_id: {month, type}, total: {$sum: "$amount"}}` value
for one `(month, type)` group: the sum of raw signed `amount`s of the
year's transactions in that month with that type. -/
def monthTypeTotal (txs : List Transaction) (year month : Nat) (ty : TxType) : ℚ :=
  ((txs.filter
      (fun t => inYear year t && decide (t.date.month = month) &&
        decide (t.type = ty))).map
    (fun t => t.amount)).sum

/-- Whether the `(month, type)` group exists, i.e. some transaction of
`year` falls in `month` with type `ty`. -/
def hasMonthType (txs : List Transaction) (year month : Nat) (ty : TxType) : Bool :=
  txs.any
    (fun t => inYear year t && decide (t.date.month = month) &&
      decide (t.type = ty))

/-- Whether the month group exists at all in the pipeline output. -/
def hasMonth (txs : List Transaction) (year month : Nat) : Bool :=
  txs.any (fun t => inYear year t && decide (t.date.month = month))

/-- The `data` array pushed by the second `$group` stage for an
existing month group: one `{type, amount}` entry per type present
(determinized as expense first, then income). -/
def monthGroupData (txs : List Transaction) (year month : Nat) : List TypeAmount :=
  (if hasMonthType txs year month TxType.expense then
    [⟨TxType.expense, monthTypeTotal txs year month TxType.expense⟩]
  else []) ++
  (if hasMonthType txs year month TxType.income then
    [⟨TxType.income, monthTypeTotal txs year month TxType.income⟩]
  else [])

/-- The body of the fill loop (lines 71-97): for an existing month,
push `{type: 'expense', amount: 0}` / `{type: 'income', amount: 0}`
when missing; for an absent month push the all-zero entry. -/
def fillMonth (txs : List Transaction) (year month : Nat) : MonthEntry :=
  if hasMonth txs year month then
    let d0 := monthGroupData txs year month
    let d1 := if d0.any (fun d => decide (d.type = TxType.expense)) then d0
      else d0 ++ [⟨TxType.expense, 0⟩]
    let d2 := if d1.any (fun d => decide (d.type = TxType.income)) then d1
      else d1 ++ [⟨TxType.income, 0⟩]
    ⟨month, d2⟩
  else
    ⟨month, [⟨TxType.expense, 0⟩, ⟨TxType.income, 0⟩]⟩

/-- The `fullYearData` response of GET /monthly-summary: the fill loop
`for (let month = 1; month <= 12; month++)`. -/
def fullYearData (txs : List Transaction) (year : Nat) : List MonthEntry :=
  (List.range 12).map (fun i => fillMonth txs year (i + 1))

/-- Client-side accessor: the amount recorded in an entry's `data`
array for a given type (`none` when the field is absent). -/
def amountFor (e : MonthEntry) (ty : TxType) : Option ℚ :=
  (e.data.find? (fun d => decide (d.type = ty))).map (fun d => d.amount)

/-! ### MongoDB `$group` determinization -/

/-- Append a key to the list of group keys if it is new. -/
def insertKey [DecidableEq κ] (ks : List κ) (k : κ) : List κ :=
  if k ∈ ks then ks else ks ++ [k]

/-- The distinct group keys of a `$group` stage, in first-occurrence
order of the documents. -/
def groupKeys [DecidableEq κ] (f : Transaction → κ) (ts : List Transaction) :
    List κ :=
  ts.foldl (fun ks t => insertKey ks (f t)) []

/-- The `$sum` accumulator of the group with key `k`. -/
def sumBy [DecidableEq κ] (f : Transaction → κ) (v : Transaction → ℚ) (k : κ)
    (ts : List Transaction) : ℚ :=
  ((ts.filter (fun t => decide (f t = k))).map v).sum

/-! ### The `$lookup localField: 'category'` joins

GET /category-summary (lines 111-177) and the per-category spending
pipelines of GET /insights (lines 580-638) join `categories` on
`localField: 'category'` and group on `'$category'`.  The Transaction
schema defines `categoryId` and no field called `category`, so the
path `$category` is missing on every document; MongoDB groups a
missing path as the `null` key and the lookup array comes back empty
(no category has a `null` `_id`). -/

/-- The value of the (nonexistent) `category` path of a transaction
document: the schema (`models/Transaction.js`) has no such field, so
it is `none` for every document. -/
def categoryPath (_t : Transaction) : Option Nat :=
  none

/-- `$unwind`ed `categoryInfo` of the `$lookup from: 'categories'` on a
group key: resolve the key against the categories collection. -/
def lookupCategoryInfo (cats : List Category) (k : Option Nat) : Option Category :=
  match k with
  | none => none
  | some cid => cats.find? (fun c => decide (c.id = cid))

/-- `$ifNull: ['$categoryInfo.name', 'Uncategorized']`. -/
def catGroupName (cats : List Category) (k : Option Nat) : String :=
  match lookupCategoryInfo cats k with
  | some c => c.name
  | none => "Uncategorized"

/-- `$ifNull: ['$categoryInfo.color', '#6E7582']`. -/
def catGroupColor (cats : List Category) (k : Option Nat) : String :=
  match lookupCategoryInfo cats k with
  | some c => c.color
  | none => "#6E7582"

/-! ### GET /category-summary (analytics.js lines 111-177) -/

/-- The projected `id: {$ifNull: ['$_id', 'uncategorized']}`: either a
real category ObjectId or the string `'uncategorized'`. -/
inductive CatId where
  | cat (c : Nat)
  | uncategorized
deriving DecidableEq, Repr

/-- `$ifNull: ['$_id', 'uncategorized']` on the group key. -/
def ifNullId (k : Option Nat) : CatId :=
  match k with
  | some c => CatId.cat c
  | none => CatId.uncategorized

/-- One group of the category-summary pipeline after the `$group`
stage (key, joined name and color, `$sum '$amount'`). -/
structure CatSumGroup where
  key : Option Nat
  name : String
  color : String
  total : ℚ
deriving DecidableEq, Repr

/-- One row of the GET /category-summary response. -/
structure CategoryRow where
  id : CatId
  name : String
  color : String
  value : ℚ
deriving DecidableEq, Repr

/-- The `$match` stage of category-summary: date in `[start, end]` and
the requested `type`. -/
def categoryMatch (start finish : CalDate) (ty : TxType) (txs : List Transaction) :
    List Transaction :=
  txs.filter
    (fun t => dateLE start t.date && dateLE t.date finish && decide (t.type = ty))

/-- Groups of the category-summary pipeline: grouped on the missing
`$category` path, names/colors joined through `$lookup`. -/
def categorySummaryGroups (cats : List Category) (matched : List Transaction) :
    List CatSumGroup :=
  (groupKeys categoryPath matched).map
    (fun k => ⟨k, catGroupName cats k, catGroupColor cats k,
      sumBy categoryPath (fun t => t.amount) k matched⟩)

/-- Descending-by-total comparator of the `$sort {total: -1}` stage. -/
def catSumLE (a b : CatSumGroup) : Bool :=
  decide (b.total ≤ a.total)

/-- The GET /category-summary response: match, group (on `$category`),
sort by total descending, project. -/
def categorySummary (txs : List Transaction) (cats : List Category)
    (start finish : CalDate) (ty : TxType) : List CategoryRow :=
  ((categorySummaryGroups cats (categoryMatch start finish ty txs)).mergeSort
      catSumLE).map
    (fun g => ⟨ifNullId g.key, g.name, g.color, g.total⟩)

/-! ### GET /dashboard-summary (analytics.js lines 256-386) -/

/-- `(year, month)` of the previous calendar month, with the JavaScript
`new Date(y, m - 1, 1)` month rollover at January. -/
def prevYM (y m : Nat) : Nat × Nat :=
  if m = 1 then (y - 1, 12) else (y, m - 1)

/-- The per-type `$group` total over a whole calendar month, consumed
as `summary.find(s => s._id === ty)?.total || 0` (an absent group reads
as 0, which coincides with the empty sum). -/
def monthTypeSum (txs : List Transaction) (y m : Nat) (ty : TxType) : ℚ :=
  ((txs.filter
      (fun t => decide (t.date.year = y) && decide (t.date.month = m) &&
        decide (t.type = ty))).map
    (fun t => t.amount)).sum

/-- `currentMonthIncome` (line 351); the current-month range covers the
whole month of `now`. -/
def currentMonthIncome (txs : List Transaction) (now : CalDate) : ℚ :=
  monthTypeSum txs now.year now.month TxType.income

/-- `currentMonthExpense` (line 352). -/
def currentMonthExpense (txs : List Transaction) (now : CalDate) : ℚ :=
  monthTypeSum txs now.year now.month TxType.expense

/-- `prevMonthIncome` (line 353). -/
def prevMonthIncome (txs : List Transaction) (now : CalDate) : ℚ :=
  monthTypeSum txs (prevYM now.year now.month).1 (prevYM now.year now.month).2
    TxType.income

/-- `prevMonthExpense` (line 354). -/
def prevMonthExpense (txs : List Transaction) (now : CalDate) : ℚ :=
  monthTypeSum txs (prevYM now.year now.month).1 (prevYM now.year now.month).2
    TxType.expense

/-- `incomeChange` (lines 357-359):
`prevMonthIncome === 0 ? 100 : ((cur - prev) / prev) * 100`. -/
def incomeChange (txs : List Transaction) (now : CalDate) : ℚ :=
  if prevMonthIncome txs now = 0 then 100
  else ((currentMonthIncome txs now - prevMonthIncome txs now) /
    prevMonthIncome txs now) * 100

/-- `expenseChange` (lines 360-362). -/
def expenseChange (txs : List Transaction) (now : CalDate) : ℚ :=
  if prevMonthExpense txs now = 0 then 100
  else ((currentMonthExpense txs now - prevMonthExpense txs now) /
    prevMonthExpense txs now) * 100

/-! ### GET /budget-comparison (analytics.js lines 393-503) -/

/-- A comparison row's `id`: the budget's `_id`, or the template string
`` `unbudgeted-${category._id}` `` for a synthesized row. -/
inductive RowId where
  | budget (b : Nat)
  | unbudgeted (c : Nat)
deriving DecidableEq, Repr

/-- The `category` sub-object of a comparison row. -/
structure CatInfo where
  id : Nat
  name : String
  color : String
  icon : String
deriving DecidableEq, Repr

/-- One row of the GET /budget-comparison response.  `percentage` is
the display metric the spec calls `percentageUsed`. -/
structure ComparisonRow where
  id : RowId
  category : CatInfo
  budgeted : ℚ
  actual : ℚ
  difference : ℚ
  percentage : ℚ
  status : String
deriving DecidableEq, Repr

/-- The month's expense transactions
(`$match {type: 'expense', date: month range}`). -/
def expensesInMonth (txs : List Transaction) (year month : Nat) : List Transaction :=
  txs.filter
    (fun t => decide (t.type = TxType.expense) && decide (t.date.year = year) &&
      decide (t.date.month = month))

/-- The `actualExpenses` aggregate (lines 408-421):
`$group {_id: '$categoryId', actual: {$sum: '$amount'}}` over the
month's expenses. -/
def actualExpenses (txs : List Transaction) (year month : Nat) :
    List (Option Nat × ℚ) :=
  (groupKeys (fun t => t.categoryId) (expensesInMonth txs year month)).map
    (fun k =>
      (k, sumBy (fun t => t.categoryId) (fun t => t.amount) k
        (expensesInMonth txs year month)))

/-- One iteration of `budgets.map(...)` (lines 424-453).  The budgets
are fetched with `.populate('categoryId', ...)`; when the referenced
category does not exist, `populate` leaves `null` and the expression
`budget.categoryId._id` throws a TypeError — modelled as `none`. -/
def budgetRow (cats : List Category) (actuals : List (Option Nat × ℚ))
    (b : Budget) : Option ComparisonRow :=
  match cats.find? (fun c => decide (c.id = b.categoryId)) with
  | none => none
  | some cat =>
    let actualAmount : ℚ :=
      match actuals.find? (fun e => decide (e.1 = some b.categoryId)) with
      | some e => e.2
      | none => 0
    let difference := b.amount - actualAmount
    let percentage : ℚ :=
      if 0 < b.amount then actualAmount / b.amount * 100 else 0
    some
      { id := RowId.budget b.id
        category := ⟨cat.id, cat.name, cat.color, cat.icon⟩
        budgeted := b.amount
        actual := actualAmount
        difference := difference
        percentage := min percentage 100
        status := if 0 ≤ difference then "within" else "exceeded" }

/-- A synthesized row for a category with expenses but no budget
(lines 477-490). -/
def unbudgetedRow (cat : Category) (total : ℚ) : ComparisonRow :=
  { id := RowId.unbudgeted cat.id
    category := ⟨cat.id, cat.name, cat.color, cat.icon⟩
    budgeted := 0
    actual := total
    difference := -total
    percentage := 100
    status := "unbudgeted" }

/-- The budgets matching the requested month/year
(`Budget.find({month, year})`). -/
def monthBudgets (budgets : List Budget) (m y : Nat) : List Budget :=
  budgets.filter (fun b => decide (b.month = m) && decide (b.year = y))

/-- `budgets.map(budget => ...)` (line 424) with the TypeError of an
unresolvable category propagated: `none` as soon as one budget fails
to populate. -/
def budgetRows (cats : List Category) (actuals : List (Option Nat × ℚ)) :
    List Budget → Option (List ComparisonRow)
  | [] => some []
  | b :: bs =>
    match budgetRow cats actuals b, budgetRows cats actuals bs with
    | some r, some rs => some (r :: rs)
    | _, _ => none

/-- The synthesized rows (lines 456-493): aggregate entries with a
non-null category key and no matching budget, each kept only when its
category id resolves in the categories collection. -/
def synthRows (cats : List Category) (bs : List Budget)
    (actuals : List (Option Nat × ℚ)) : List ComparisonRow :=
  (actuals.filter
      (fun e =>
        e.1.isSome &&
          !(bs.any (fun b => decide (some b.categoryId = e.1))))).filterMap
    (fun e =>
      match e.1 with
      | some cid =>
        (cats.find? (fun c => decide (c.id = cid))).map
          (fun cat => unbudgetedRow cat e.2)
      | none => none)

/-- The `comparison` array before the final sort: the budget rows
(throwing — `none` — if any budget's category fails to populate),
followed by the synthesized rows. -/
def comparisonUnsorted (txs : List Transaction) (cats : List Category)
    (budgets : List Budget) (m y : Nat) : Option (List ComparisonRow) :=
  let bs := monthBudgets budgets m y
  let actuals := actualExpenses txs y m
  match budgetRows cats actuals bs with
  | none => none
  | some rows => some (rows ++ synthRows cats bs actuals)

/-- The `comparison.sort((a, b) => b.percentage - a.percentage)`
comparator (line 496): descending by percentage; `Array.prototype.sort`
is stable (ES2019), hence merge sort. -/
def cmpRows (a b : ComparisonRow) : Bool :=
  decide (b.percentage ≤ a.percentage)

/-- The GET /budget-comparison response. -/
def budgetComparison (txs : List Transaction) (cats : List Category)
    (budgets : List Budget) (m y : Nat) : Option (List ComparisonRow) :=
  (comparisonUnsorted txs cats budgets m y).map (fun l => l.mergeSort cmpRows)

/-! ### GET /insights (analytics.js lines 510-738) -/

/-- Current-period expenses: `$match {type: 'expense', date: {$gte:
thisMonthStart, $lte: now}}` — the month of `now` up to and including
today. -/
def currentPeriodExpenses (txs : List Transaction) (now : CalDate) :
    List Transaction :=
  txs.filter
    (fun t => decide (t.type = TxType.expense) && decide (t.date.year = now.year) &&
      decide (t.date.month = now.month) && decide (t.date.day ≤ now.day))

/-- Previous-period expenses: the whole previous calendar month. -/
def lastMonthExpenses (txs : List Transaction) (now : CalDate) :
    List Transaction :=
  txs.filter
    (fun t => decide (t.type = TxType.expense) &&
      decide (t.date.year = (prevYM now.year now.month).1) &&
      decide (t.date.month = (prevYM now.year now.month).2))

/-- `currentMonthSpending[0]?.total || 0` (line 691): the `$group
{_id: null, total: {$sum: '$amount'}}` total, 0 when the month has no
expenses (which coincides with the empty sum). -/
def currentTotal (txs : List Transaction) (now : CalDate) : ℚ :=
  ((currentPeriodExpenses txs now).map (fun t => t.amount)).sum

/-- `currentMonthSpending[0]?.count || 0` (line 704). -/
def currentCount (txs : List Transaction) (now : CalDate) : Nat :=
  (currentPeriodExpenses txs now).length

/-- `lastMonthSpending[0]?.total || 0` (line 696). -/
def lastMonthTotal (txs : List Transaction) (now : CalDate) : ℚ :=
  ((lastMonthExpenses txs now).map (fun t => t.amount)).sum

/-- Days in a Gregorian month, as computed by
`new Date(year, month, 0).getDate()` with 1-based `month`. -/
def daysInMonth (y m : Nat) : Nat :=
  if m = 2 then
    (if (y % 4 = 0 ∧ y % 100 ≠ 0) ∨ y % 400 = 0 then 29 else 28)
  else if m = 4 ∨ m = 6 ∨ m = 9 ∨ m = 11 then 30
  else 31

/-- `dailyAverage = currentTotal / dayOfMonth` (line 692);
`dayOfMonth = now.getDate()` is the calendar day of `now`, always in
1..31 — the code has no zero guard and needs none. -/
def dailyAverage (txs : List Transaction) (now : CalDate) : ℚ :=
  currentTotal txs now / (now.day : ℚ)

/-- `projectedTotal = dailyAverage * daysInMonth` (line 693). -/
def projectedTotal (txs : List Transaction) (now : CalDate) : ℚ :=
  dailyAverage txs now * (daysInMonth now.year now.month : ℚ)

/-- `projectedSpending.percentageChange` (lines 713-715):
`lastMonthTotal > 0 ? (((projectedTotal - lastMonthTotal) /
lastMonthTotal) * 100).toFixed(2) : '0.00'`.  Note the zero-baseline
branch yields 0, not 100. -/
def projectedPercentageChange (txs : List Transaction) (now : CalDate) : ℚ :=
  if 0 < lastMonthTotal txs now then
    ((projectedTotal txs now - lastMonthTotal txs now) /
      lastMonthTotal txs now) * 100
  else 0

/-- One group of the per-category spending pipelines (lines 580-638):
key `'$category'` (a missing path — see `categoryPath`), joined name,
`$sum '$amount'`. -/
structure CatGroup where
  key : Option Nat
  name : String
  total : ℚ
deriving DecidableEq, Repr

/-- Groups of `currentMonthCategorySpending` /
`lastMonthCategorySpending`, grouped on the missing `$category` path. -/
def catSpendingGroups (cats : List Category) (period : List Transaction) :
    List CatGroup :=
  (groupKeys categoryPath period).map
    (fun k => ⟨k, catGroupName cats k,
      sumBy categoryPath (fun t => t.amount) k period⟩)

/-- `currentMonthCategorySpending` (lines 580-608). -/
def currentCatGroups (txs : List Transaction) (cats : List Category)
    (now : CalDate) : List CatGroup :=
  catSpendingGroups cats (currentPeriodExpenses txs now)

/-- `lastMonthCategorySpending` (lines 610-638). -/
def lastCatGroups (txs : List Transaction) (cats : List Category)
    (now : CalDate) : List CatGroup :=
  catSpendingGroups cats (lastMonthExpenses txs now)

/-- One entry of the `categoryChanges` array (lines 641-681). -/
structure CatChange where
  categoryId : Option Nat
  name : String
  currentAmount : ℚ
  previousAmount : ℚ
  change : ℚ
deriving DecidableEq, Repr

/-- The `categoryChanges.sort((a, b) => Math.abs(b.change) -
Math.abs(a.change))` comparator (line 684): descending by absolute
change, stable. -/
def catChangeLE (a b : CatChange) : Bool :=
  decide (|b.change| ≤ |a.change|)

/-- The `lastMonth ? lastMonth.total : 0` lookup of a current group's
key among the last-month groups (lines 644-649; the key match treats
two `null` keys as equal, which is `Option` equality here). -/
def lastTotalFor (last : List CatGroup) (k : Option Nat) : ℚ :=
  match last.find? (fun l => decide (l.key = k)) with
  | some l => l.total
  | none => 0

/-- The `categoryChanges` array before its sort (lines 641-681).  The
first pass walks the current-month groups (pushing only when
`current.total > 0`, with the `lastMonthTotal === 0 ? 100 : ...`
change); the second pass walks the last-month groups with no current
counterpart (pushing `change: -100` only when `last.total > 0`). -/
def categoryChangesUnsorted (txs : List Transaction) (cats : List Category)
    (now : CalDate) : List CatChange :=
  let current := currentCatGroups txs cats now
  let last := lastCatGroups txs cats now
  let fromCurrent := current.filterMap
    (fun cur =>
      let lastTot : ℚ := lastTotalFor last cur.key
      let change : ℚ :=
        if lastTot = (0 : ℚ) then 100
        else ((cur.total - lastTot) / lastTot) * 100
      if 0 < cur.total then
        some ⟨cur.key, cur.name, cur.total, lastTot, change⟩
      else none)
  let fromLast := last.filterMap
    (fun l =>
      if current.any (fun c => decide (c.key = l.key)) then none
      else if 0 < l.total then some ⟨l.key, l.name, 0, l.total, -100⟩
      else none)
  fromCurrent ++ fromLast

/-- The sorted `categoryChanges` array (line 684). -/
def categoryChanges (txs : List Transaction) (cats : List Category)
    (now : CalDate) : List CatChange :=
  (categoryChangesUnsorted txs cats now).mergeSort catChangeLE

/-- `significantChanges: categoryChanges.slice(0, 3)` (line 724). -/
def significantChanges (txs : List Transaction) (cats : List Category)
    (now : CalDate) : List CatChange :=
  (categoryChanges txs cats now).take 3

/-! ### The Comparator policy of spec §4.4

Modelled from the spec: `percentChange(current, previous)` — `100` when
`previous == 0` regardless of `current`, otherwise
`((current - previous) / previous) * 100`.  Used as the refinement
target the engine's metrics are compared against. -/
def percentChange (current previous : ℚ) : ℚ :=
  if previous = 0 then 100 else ((current - previous) / previous) * 100

/-! ### Helper lemmas about the grouping determinization -/

theorem mem_insertKey [DecidableEq κ] (ks : List κ) (j k : κ) :
    k ∈ insertKey ks j ↔ k ∈ ks ∨ k = j := by
  unfold insertKey
  by_cases hj : j ∈ ks
  · simp only [if_pos hj]
    constructor
    · exact Or.inl
    · rintro (h | rfl)
      · exact h
      · exact hj
  · simp [if_neg hj]

theorem mem_foldl_insertKey [DecidableEq κ] (f : Transaction → κ) (k : κ) :
    ∀ (ts : List Transaction) (acc : List κ),
      k ∈ ts.foldl (fun ks t => insertKey ks (f t)) acc ↔
        k ∈ acc ∨ ∃ t ∈ ts, f t = k := by
  intro ts
  induction ts with
  | nil => simp
  | cons t ts ih =>
    intro acc
    rw [List.foldl_cons, ih, mem_insertKey]
    constructor
    · rintro ((h | h) | ⟨u, hu, rfl⟩)
      · exact Or.inl h
      · exact Or.inr ⟨t, List.mem_cons_self t ts, h.symm⟩
      · exact Or.inr ⟨u, List.mem_cons_of_mem t hu, rfl⟩
    · rintro (h | ⟨u, hu, rfl⟩)
      · exact Or.inl (Or.inl h)
      · rcases List.mem_cons.mp hu with rfl | hu
        · exact Or.inl (Or.inr rfl)
        · exact Or.inr ⟨u, hu, rfl⟩

theorem mem_groupKeys [DecidableEq κ] (f : Transaction → κ) (ts : List Transaction)
    (k : κ) : k ∈ groupKeys f ts ↔ ∃ t ∈ ts, f t = k := by
  rw [groupKeys, mem_foldl_insertKey]
  simp

/-- Folding the constant-`none` key function keeps the accumulator
`[none]`. -/
theorem foldl_insertKey_categoryPath_none :
    ∀ ts : List Transaction,
      ts.foldl (fun ks t => insertKey ks (categoryPath t)) [(none : Option Nat)] =
        [none] := by
  intro ts
  induction ts with
  | nil => rfl
  | cons t ts ih =>
    rw [List.foldl_cons]
    have : insertKey [(none : Option Nat)] (categoryPath t) = [none] := by
      simp [insertKey, categoryPath]
    rw [this, ih]

/-- All documents group under the single `null` key of the missing
`$category` path. -/
theorem groupKeys_categoryPath (ts : List Transaction) :
    groupKeys categoryPath ts = if ts.isEmpty then [] else [none] := by
  cases ts with
  | nil => rfl
  | cons t ts =>
    have h0 : insertKey ([] : List (Option Nat)) (categoryPath t) = [none] := by
      simp [insertKey, categoryPath]
    have h1 : groupKeys categoryPath (t :: ts) = [none] := by
      rw [groupKeys, List.foldl_cons, h0]
      exact foldl_insertKey_categoryPath_none ts
    rw [h1]
    simp

/-- The constant-`none` group's sum is the plain sum over all
documents. -/
theorem sumBy_categoryPath (v : Transaction → ℚ) (ts : List Transaction) :
    sumBy categoryPath v none ts = (ts.map v).sum := by
  unfold sumBy
  congr 1
  simp [categoryPath, List.filter_eq_self]

/-! ### Helper lemmas about the sort comparators -/

theorem cmpRows_trans (a b c : ComparisonRow) (h1 : cmpRows a b) (h2 : cmpRows b c) :
    cmpRows a c := by
  simp only [cmpRows, decide_eq_true_eq] at h1 h2 ⊢
  exact le_trans h2 h1

theorem cmpRows_total (a b : ComparisonRow) : cmpRows a b || cmpRows b a := by
  simp only [cmpRows, Bool.or_eq_true, decide_eq_true_eq]
  exact le_total _ _

theorem catChangeLE_trans (a b c : CatChange) (h1 : catChangeLE a b)
    (h2 : catChangeLE b c) : catChangeLE a c := by
  simp only [catChangeLE, decide_eq_true_eq] at h1 h2 ⊢
  exact le_trans h2 h1

theorem catChangeLE_total (a b : CatChange) : catChangeLE a b || catChangeLE b a := by
  simp only [catChangeLE, Bool.or_eq_true, decide_eq_true_eq]
  exact le_total _ _

/-! ### Helper lemmas about the monthly summary -/

theorem fillMonth_month (txs : List Transaction) (year m : Nat) :
    (fillMonth txs year m).month = m := by
  unfold fillMonth
  split <;> rfl

theorem hasMonthType_false_of_hasMonth (txs : List Transaction) (year m : Nat)
    (h : hasMonth txs year m = false) (ty : TxType) :
    hasMonthType txs year m ty = false := by
  simp only [hasMonth, List.any_eq_false] at h
  simp only [hasMonthType, List.any_eq_false]
  intro t ht
  have h2 := h t ht
  simp only [Bool.and_eq_true] at h2 ⊢
  tauto

/-- A month/type pair with no matching transaction is reported with
amount 0 in the filled entry — either through the filler entry for an
absent month, or through the pushed zero sub-field. -/
theorem amountFor_fillMonth_zero (txs : List Transaction) (year m : Nat)
    (ty : TxType) (h : hasMonthType txs year m ty = false) :
    amountFor (fillMonth txs year m) ty = some 0 := by
  cases hm : hasMonth txs year m with
  | false =>
    simp only [fillMonth, hm, Bool.false_eq_true, if_false]
    cases ty <;> rfl
  | true =>
    cases ty with
    | expense =>
      cases hi : hasMonthType txs year m TxType.income <;>
        simp [fillMonth, hm, monthGroupData, h, hi, amountFor]
    | income =>
      cases he : hasMonthType txs year m TxType.expense <;>
        simp [fillMonth, hm, monthGroupData, h, he, amountFor]

theorem fullYearData_get (txs : List Transaction) (year i : Nat)
    (h : i < (fullYearData txs year).length) :
    (fullYearData txs year).get ⟨i, h⟩ = fillMonth txs year (i + 1) := by
  simp [fullYearData, List.get_eq_getElem]

/-! ### Concrete records used by the scenario theorems -/

/-- Convenience constructor for concrete transactions; the fields not
involved in the analytics (description, paymentMethod, notes) take
their schema defaults. -/
def mkTx (a : ℚ) (d : CalDate) (ty : TxType) (c : Option Nat) : Transaction :=
  ⟨a, "", d, ty, c, "cash", ""⟩

/-- The spec §8 scenario transactions: two March-2025 expenses of -50
and -30 (no `type` given, so the schema default `expense`) in category
"food" (modelled as id 1), and a March income of 2000. -/
def scenarioTxs : List Transaction :=
  [mkTx (-50) ⟨2025, 3, 5⟩ TxType.expense (some 1),
   mkTx (-30) ⟨2025, 3, 20⟩ TxType.expense (some 1),
   mkTx 2000 ⟨2025, 3, 1⟩ TxType.income none]

/-! ## Claim theorems -/

/-- **C4** (confirmed).  For every year and transaction set,
`monthlySummary` (the `fullYearData` response of GET /monthly-summary)
has exactly 12 entries with month fields strictly ascending 1..12;
a month with no transactions carries `expense` 0 and `income` 0, and a
month whose transactions are all of one type still carries the other
type with amount 0 rather than an absent field. -/
theorem monthlySummary_gap_fill (txs : List Transaction) (year : Nat) :
    (fullYearData txs year).length = 12 ∧
    ∀ i (h : i < (fullYearData txs year).length),
      ((fullYearData txs year).get ⟨i, h⟩).month = i + 1 ∧
      (hasMonth txs year (i + 1) = false →
        amountFor ((fullYearData txs year).get ⟨i, h⟩) TxType.expense = some 0 ∧
        amountFor ((fullYearData txs year).get ⟨i, h⟩) TxType.income = some 0) ∧
      ∀ ty, hasMonthType txs year (i + 1) ty = false →
        amountFor ((fullYearData txs year).get ⟨i, h⟩) ty = some 0 := by
  refine ⟨by simp [fullYearData], ?_⟩
  intro i h
  rw [fullYearData_get]
  refine ⟨fillMonth_month txs year (i + 1), ?_, ?_⟩
  · intro hm
    exact
      ⟨amountFor_fillMonth_zero _ _ _ _
          (hasMonthType_false_of_hasMonth _ _ _ hm _),
        amountFor_fillMonth_zero _ _ _ _
          (hasMonthType_false_of_hasMonth _ _ _ hm _)⟩
  · intro ty hty
    exact amountFor_fillMonth_zero _ _ _ _ hty

/-- Witness for C4 at a concrete input: the January entry of an empty
year reports a zero expense sub-field. -/
theorem monthlySummary_gap_fill_witness :
    amountFor ((fullYearData [] 2025).get
      ⟨0, by simp [fullYearData]⟩) TxType.expense = some 0 :=
  (((monthlySummary_gap_fill [] 2025).2 0 (by simp [fullYearData])).2.1 rfl).1

/-- `getD` indexing into the fill loop's response. -/
theorem fullYearData_getD (txs : List Transaction) (year i : Nat) (h : i < 12)
    (d : MonthEntry) :
    (fullYearData txs year).getD i d = fillMonth txs year (i + 1) := by
  simp [fullYearData, List.getD_eq_getElem?_getD, List.getElem?_map,
    List.getElem?_range, h]

/-- Evaluation of the March entry of the scenario: the expense
sub-field is the raw signed sum -50 + -30 = -80. -/
theorem scenario_fillMonth_march : fillMonth scenarioTxs 2025 3 =
    ⟨3, [⟨TxType.expense, -80⟩, ⟨TxType.income, 2000⟩]⟩ := by
  simp +decide only [fillMonth, monthGroupData, hasMonth, hasMonthType,
    monthTypeTotal, scenarioTxs, mkTx, inYear, List.filter, List.map,
    List.any_cons, List.any_nil]
  norm_num

/-- **C5**, counterexample.  On the §8 scenario transactions the
engine's March entry reports `expense = -80` — the raw signed sum of
the amounts -50 and -30 — not the `expense: 80` the claim states. -/
theorem scenario_march_expense_is_negative :
    amountFor ((fullYearData scenarioTxs 2025).getD 2 ⟨0, []⟩) TxType.expense =
      some (-80) ∧
    amountFor ((fullYearData scenarioTxs 2025).getD 2 ⟨0, []⟩) TxType.expense ≠
      some 80 := by
  rw [fullYearData_getD scenarioTxs 2025 2 (by norm_num) ⟨0, []⟩,
    scenario_fillMonth_march]
  constructor
  · simp [amountFor]
  · simp only [amountFor, List.find?, Option.map_some]
    norm_num

/-- **C5** (corrected).  On the scenario transactions the March entry
equals `{month: 3, expense: -80, income: 2000}` (the engine sums raw
signed amounts, so the expense total is -80, not 80), and each of the
other 11 entries carries `expense` 0 and `income` 0. -/
theorem scenario_monthly_summary :
    (fullYearData scenarioTxs 2025).getD 2 ⟨0, []⟩ =
      ⟨3, [⟨TxType.expense, -80⟩, ⟨TxType.income, 2000⟩]⟩ ∧
    (fullYearData scenarioTxs 2025).length = 12 ∧
    ∀ e ∈ fullYearData scenarioTxs 2025,
      e.month = 3 ∨
        (amountFor e TxType.expense = some 0 ∧
          amountFor e TxType.income = some 0) := by
  refine ⟨?_, by simp [fullYearData], ?_⟩
  · rw [fullYearData_getD scenarioTxs 2025 2 (by norm_num) ⟨0, []⟩]
    exact scenario_fillMonth_march
  · intro e he
    simp only [fullYearData, List.mem_map, List.mem_range] at he
    obtain ⟨i, hi, rfl⟩ := he
    interval_cases i
    all_goals
      first
        | exact Or.inr ⟨amountFor_fillMonth_zero _ _ _ _ (by decide),
            amountFor_fillMonth_zero _ _ _ _ (by decide)⟩
        | exact Or.inl (fillMonth_month _ _ _)

/-- Concrete insights input: one July-2025 expense of 30, "now" July 3
2025; June (the previous month) has no transactions. -/
def julyTxs : List Transaction := [mkTx 30 ⟨2025, 7, 2⟩ TxType.expense none]

/-- The reference instant for `julyTxs`. -/
def julyNow : CalDate := ⟨2025, 7, 3⟩

/-- **C1**, counterexample.  With a zero previous-month total the
projected-spending percentage change is 0 (`'0.00'`), not the 100 the
Comparator policy of the claim prescribes. -/
theorem projected_change_zero_baseline :
    lastMonthTotal julyTxs julyNow = 0 ∧
    projectedPercentageChange julyTxs julyNow = 0 ∧
    projectedPercentageChange julyTxs julyNow ≠
      percentChange (projectedTotal julyTxs julyNow) 0 := by
  have h0 : lastMonthTotal julyTxs julyNow = 0 := by
    simp +decide [lastMonthTotal, lastMonthExpenses, julyTxs, julyNow, mkTx,
      prevYM]
  refine ⟨h0, by simp [projectedPercentageChange, h0], ?_⟩
  rw [projectedPercentageChange, if_neg (by rw [h0]; exact lt_irrefl 0),
    percentChange, if_pos rfl]
  norm_num

/-- **C1** (corrected/amended policy). -/
theorem percent_change_policy :
    (∀ c : ℚ, percentChange c 0 = 100) ∧
    (∀ c p : ℚ, p ≠ 0 → percentChange c p = ((c - p) / p) * 100) ∧
    (∀ p : ℚ, p ≠ 0 → percentChange 0 p = -100) ∧
    (∀ txs now, incomeChange txs now =
      percentChange (currentMonthIncome txs now) (prevMonthIncome txs now)) ∧
    (∀ txs now, expenseChange txs now =
      percentChange (currentMonthExpense txs now) (prevMonthExpense txs now)) ∧
    (∀ txs cats now, ∀ ch ∈ categoryChanges txs cats now,
      ch.change = percentChange ch.currentAmount ch.previousAmount) ∧
    (∀ txs now, lastMonthTotal txs now = 0 →
      projectedPercentageChange txs now = 0) ∧
    (∀ txs now, 0 < lastMonthTotal txs now →
      projectedPercentageChange txs now =
        percentChange (projectedTotal txs now) (lastMonthTotal txs now)) := by
  refine ⟨?_, ?_, ?_, ?_, ?_, ?_, ?_, ?_⟩
  · intro c; simp [percentChange]
  · intro c p hp; simp [percentChange, hp]
  · intro p hp
    rw [percentChange, if_neg hp]
    field_simp
  · intro txs now; rfl
  · intro txs now; rfl
  · intro txs cats now ch hch
    rw [categoryChanges, List.mem_mergeSort] at hch
    simp only [categoryChangesUnsorted, List.mem_append, List.mem_filterMap]
      at hch
    rcases hch with ⟨cur, _hcur, hf⟩ | ⟨l, _hl, hf⟩
    · split at hf
      · simp only [Option.some.injEq] at hf
        subst hf
        rfl
      · exact Option.noConfusion hf
    · split at hf
      · exact Option.noConfusion hf
      · split at hf
        · rename_i hpos
          simp only [Option.some.injEq] at hf
          subst hf
          show (-100 : ℚ) = percentChange 0 l.total
          rw [percentChange, if_neg (ne_of_gt hpos)]
          field_simp
        · exact Option.noConfusion hf
  · intro txs now h; simp [projectedPercentageChange, h]
  · intro txs now h
    rw [projectedPercentageChange, if_pos h, percentChange,
      if_neg (ne_of_gt h)]

/-- Witness for C1: the policy at `current = 0, previous = 5`. -/
theorem percent_change_policy_witness : percentChange 0 5 = -100 :=
  percent_change_policy.2.2.1 5 (by norm_num)

/-- Membership of budget rows in the successfully built row list. -/
theorem budgetRows_mem (cats : List Category) (actuals : List (Option Nat × ℚ)) :
    ∀ (bs : List Budget) (rows : List ComparisonRow),
      budgetRows cats actuals bs = some rows →
      ∀ b ∈ bs, ∃ r ∈ rows, budgetRow cats actuals b = some r := by
  intro bs
  induction bs with
  | nil => intro rows _h b hb; exact absurd hb (List.not_mem_nil b)
  | cons b0 bs ih =>
    intro rows h b hb
    cases h1 : budgetRow cats actuals b0 with
    | none => rw [budgetRows, h1] at h; exact Option.noConfusion h
    | some r0 =>
      cases h2 : budgetRows cats actuals bs with
      | none => rw [budgetRows, h1, h2] at h; exact Option.noConfusion h
      | some rs =>
        rw [budgetRows, h1, h2] at h
        simp only [Option.some.injEq] at h
        subst h
        rcases List.mem_cons.mp hb with rfl | hb2
        · exact ⟨r0, List.mem_cons_self _ _, h1⟩
        · obtain ⟨r, hr, hbr⟩ := ih rs h2 b hb2
          exact ⟨r, List.mem_cons_of_mem _ hr, hbr⟩

/-- Inversion of a successful `budgetComparison`: the unsorted
comparison list exists and the response is its stable sort. -/
theorem budgetComparison_inv (txs : List Transaction) (cats : List Category)
    (budgets : List Budget) (m y : Nat) (rows : List ComparisonRow)
    (h : budgetComparison txs cats budgets m y = some rows) :
    ∃ l, comparisonUnsorted txs cats budgets m y = some l ∧
      rows = l.mergeSort cmpRows := by
  rw [budgetComparison] at h
  obtain ⟨l, hl, hr⟩ := Option.map_eq_some'.mp h
  exact ⟨l, hl, hr.symm⟩

/-- Decomposition of the unsorted comparison list. -/
theorem comparisonUnsorted_inv (txs : List Transaction) (cats : List Category)
    (budgets : List Budget) (m y : Nat) (l : List ComparisonRow)
    (h : comparisonUnsorted txs cats budgets m y = some l) :
    ∃ rows0, budgetRows cats (actualExpenses txs y m) (monthBudgets budgets m y)
        = some rows0 ∧
      l = rows0 ++ synthRows cats (monthBudgets budgets m y)
        (actualExpenses txs y m) := by
  rw [comparisonUnsorted] at h
  cases hb : budgetRows cats (actualExpenses txs y m) (monthBudgets budgets m y)
    with
  | none => rw [hb] at h; exact Option.noConfusion h
  | some rows0 =>
    rw [hb] at h
    simp only [Option.some.injEq] at h
    exact ⟨rows0, rfl, h.symm⟩

/-- The §8 over-budget scenario: a 400 budget on category 7 for July
2025 and a single 450 expense in that category. -/
def overTxs : List Transaction := [mkTx 450 ⟨2025, 7, 10⟩ TxType.expense (some 7)]

/-- The budgeted category of the over-budget scenario. -/
def foodCat : Category := ⟨7, "Food", "#FF6B6B", "utensils", "expense", false⟩

/-- The 400 budget of the over-budget scenario. -/
def foodBudget : Budget := ⟨1, 7, 400, 7, 2025, ""⟩

/-- The row the engine produces for the over-budget scenario. -/
def overBudgetRow : ComparisonRow :=
  ⟨RowId.budget 1, ⟨7, "Food", "#FF6B6B", "utensils"⟩, 400, 450, -50, 100,
    "exceeded"⟩

/-- Evaluation of the aggregate of the over-budget scenario. -/
theorem overTxs_actuals : actualExpenses overTxs 2025 7 = [(some 7, 450)] := by
  simp +decide [actualExpenses, expensesInMonth, groupKeys, insertKey, sumBy,
    overTxs, mkTx]

/-- Evaluation of the budget row of the over-budget scenario. -/
theorem overTxs_budgetRow :
    budgetRow [foodCat] (actualExpenses overTxs 2025 7) foodBudget =
      some overBudgetRow := by
  rw [overTxs_actuals]
  rw [budgetRow]
  norm_num [foodCat, foodBudget, overBudgetRow, List.find?]

/-- The status strings of a budget row, as a function of the signed
difference. -/
theorem ite_status_spec (d : ℚ) :
    ((if 0 ≤ d then "within" else "exceeded") = "within" ↔ 0 ≤ d) ∧
    ((if 0 ≤ d then "within" else "exceeded") = "exceeded" ↔ d < 0) := by
  by_cases h : 0 ≤ d
  · simp +decide [h, not_lt.mpr h]
  · simp +decide [h, lt_of_not_le h]

/-- Full evaluation of the over-budget scenario comparison. -/
theorem overTxs_comparison :
    budgetComparison overTxs [foodCat] [foodBudget] 7 2025 =
      some [overBudgetRow] := by
  have h1 : monthBudgets [foodBudget] 7 2025 = [foodBudget] := by decide
  have h2 : budgetRows [foodCat] (actualExpenses overTxs 2025 7) [foodBudget] =
      some [overBudgetRow] := by
    simp only [budgetRows, overTxs_budgetRow]
  have h3 : synthRows [foodCat] [foodBudget] (actualExpenses overTxs 2025 7) =
      [] := by
    rw [overTxs_actuals]
    decide
  simp only [budgetComparison, comparisonUnsorted, h1, h2, h3,
    List.append_nil, Option.map_some', List.mergeSort_singleton]

/-- **C2** (confirmed).  Every row built for a budget of the requested
month/year defaults `actual` to 0 when no aggregate entry matches the
budget's category, has `difference = budgeted - actual`,
`percentageUsed` equal to `(actual/budgeted)*100` capped at 100 when
`budgeted > 0` and 0 when `budgeted = 0`, and status `"within"` iff
`difference ≥ 0` / `"exceeded"` iff `difference < 0`; every matching
budget yields such a row in the response; and the 400-budget /
450-spend scenario yields `status "exceeded"`, `difference -50`,
`percentageUsed 100`. -/
theorem budget_comparison_row_fields :
    (∀ cats actuals (b : Budget) (r : ComparisonRow),
      budgetRow cats actuals b = some r →
      r.budgeted = b.amount ∧
      (actuals.find? (fun e => decide (e.1 = some b.categoryId)) = none →
        r.actual = 0) ∧
      (∀ e, actuals.find? (fun e0 => decide (e0.1 = some b.categoryId)) =
        some e → r.actual = e.2) ∧
      r.difference = r.budgeted - r.actual ∧
      (0 < r.budgeted → r.percentage = min (r.actual / r.budgeted * 100) 100) ∧
      (r.budgeted = 0 → r.percentage = 0) ∧
      (r.status = "within" ↔ 0 ≤ r.difference) ∧
      (r.status = "exceeded" ↔ r.difference < 0)) ∧
    (∀ txs cats budgets m y rows,
      budgetComparison txs cats budgets m y = some rows →
      ∀ b ∈ monthBudgets budgets m y,
        ∃ r ∈ rows, budgetRow cats (actualExpenses txs y m) b = some r) ∧
    budgetComparison overTxs [foodCat] [foodBudget] 7 2025 =
      some [overBudgetRow] ∧
    overBudgetRow.status = "exceeded" ∧
    overBudgetRow.difference = -50 ∧
    overBudgetRow.percentage = 100 := by
  refine ⟨?_, ?_, overTxs_comparison, rfl, rfl, rfl⟩
  · intro cats actuals b r h
    rw [budgetRow] at h
    cases hc : cats.find? (fun c => decide (c.id = b.categoryId)) with
    | none => rw [hc] at h; exact Option.noConfusion h
    | some cat =>
      rw [hc] at h
      simp only [Option.some.injEq] at h
      subst h
      refine ⟨rfl, ?_, ?_, rfl, ?_, ?_, ?_, ?_⟩
      · intro h0; simp only [h0]
      · intro e he; simp only [he]
      · intro hpos
        have h' : 0 < b.amount := hpos
        show min (if 0 < b.amount then _ / b.amount * 100 else 0) 100 = _
        rw [if_pos h']
      · intro h0
        have h' : b.amount = 0 := h0
        show min (if 0 < b.amount then _ / b.amount * 100 else 0) 100 = 0
        rw [h']
        norm_num
      · exact (ite_status_spec _).1
      · exact (ite_status_spec _).2
  · intro txs cats budgets m y rows h b hb
    obtain ⟨l, hl, rfl⟩ := budgetComparison_inv _ _ _ _ _ _ h
    obtain ⟨rows0, hb0, rfl⟩ := comparisonUnsorted_inv _ _ _ _ _ _ hl
    obtain ⟨r, hr, hbr⟩ := budgetRows_mem _ _ _ _ hb0 b hb
    exact ⟨r, List.mem_mergeSort.mpr (List.mem_append_left _ hr), hbr⟩

/-- Witness for C2 at the over-budget scenario. -/
theorem budget_comparison_row_fields_witness :
    overBudgetRow.budgeted = foodBudget.amount :=
  (budget_comparison_row_fields.1 [foodCat] (actualExpenses overTxs 2025 7)
    foodBudget overBudgetRow overTxs_budgetRow).1

/-- A non-null aggregate key with no matching budget and a resolvable
category yields its synthesized row. -/
theorem synthRows_mem (cats : List Category) (bs : List Budget)
    (actuals : List (Option Nat × ℚ)) (c : Nat) (total : ℚ) (cat : Category)
    (hmem : (some c, total) ∈ actuals)
    (hnob : ∀ b ∈ bs, b.categoryId ≠ c)
    (hcat : cats.find? (fun cc => decide (cc.id = c)) = some cat) :
    unbudgetedRow cat total ∈ synthRows cats bs actuals := by
  unfold synthRows
  apply List.mem_filterMap.mpr
  refine ⟨(some c, total), ?_, ?_⟩
  · apply List.mem_filter.mpr
    refine ⟨hmem, ?_⟩
    simp
    exact hnob
  · simp [hcat]

/-- Reverse membership: every built budget row stems from a budget. -/
theorem budgetRows_mem_rev (cats : List Category)
    (actuals : List (Option Nat × ℚ)) :
    ∀ (bs : List Budget) (rows : List ComparisonRow),
      budgetRows cats actuals bs = some rows →
      ∀ r ∈ rows, ∃ b ∈ bs, budgetRow cats actuals b = some r := by
  intro bs
  induction bs with
  | nil =>
    intro rows h r hr
    rw [budgetRows] at h
    simp only [Option.some.injEq] at h
    subst h
    exact absurd hr (List.not_mem_nil r)
  | cons b0 bs ih =>
    intro rows h r hr
    cases h1 : budgetRow cats actuals b0 with
    | none => rw [budgetRows, h1] at h; exact Option.noConfusion h
    | some r0 =>
      cases h2 : budgetRows cats actuals bs with
      | none => rw [budgetRows, h1, h2] at h; exact Option.noConfusion h
      | some rs =>
        rw [budgetRows, h1, h2] at h
        simp only [Option.some.injEq] at h
        subst h
        rcases List.mem_cons.mp hr with rfl | hr2
        · exact ⟨b0, List.mem_cons_self _ _, h1⟩
        · obtain ⟨b, hb, hbr⟩ := ih rs h2 r hr2
          exact ⟨b, List.mem_cons_of_mem _ hb, hbr⟩

/-- The status of a budget row is never `"unbudgeted"`. -/
theorem budgetRow_status_not_unbudgeted (cats : List Category)
    (actuals : List (Option Nat × ℚ)) (b : Budget) (r : ComparisonRow)
    (h : budgetRow cats actuals b = some r) : r.status ≠ "unbudgeted" := by
  rw [budgetRow] at h
  cases hc : cats.find? (fun c => decide (c.id = b.categoryId)) with
  | none => rw [hc] at h; exact Option.noConfusion h
  | some cat =>
    rw [hc] at h
    simp only [Option.some.injEq] at h
    subst h
    show (if 0 ≤ b.amount - _ then "within" else "exceeded") ≠ "unbudgeted"
    split <;> decide

/-- Every synthesized row's category is absent from the budget list. -/
theorem synthRows_category_not_budgeted (cats : List Category) (bs : List Budget)
    (actuals : List (Option Nat × ℚ)) :
    ∀ r ∈ synthRows cats bs actuals, r.status = "unbudgeted" ∧
      ∀ b ∈ bs, b.categoryId ≠ r.category.id := by
  intro r hr
  unfold synthRows at hr
  obtain ⟨e, he, hf⟩ := List.mem_filterMap.mp hr
  have hfil := List.mem_filter.mp he
  cases hk : e.1 with
  | none => rw [hk] at hf; exact Option.noConfusion hf
  | some cid =>
    rw [hk] at hf
    cases hc : cats.find? (fun c => decide (c.id = cid)) with
    | none =>
      simp only [hc, Option.map_none'] at hf
      exact Option.noConfusion hf
    | some cat =>
      simp only [hc, Option.map_some', Option.some.injEq] at hf
      subst hf
      have hcatid : cat.id = cid := by
        have := List.find?_some hc
        simpa using this
      refine ⟨rfl, ?_⟩
      intro b hb
      have hany := hfil.2
      rw [hk] at hany
      simp only [Option.isSome_some, Bool.true_and, Bool.not_eq_true',
        List.any_eq_false, decide_eq_true_eq] at hany
      have := hany b hb
      simp only [Option.some.injEq] at this
      simpa [unbudgetedRow, hcatid] using this

/-- The month's expense aggregate of the unresolvable-category
scenario: a 450 expense in category 5, which exists in no category
collection. -/
def orphanTxs : List Transaction :=
  [mkTx 450 ⟨2025, 7, 10⟩ TxType.expense (some 5)]

/-- Evaluation of the aggregate of the orphan scenario. -/
theorem orphanTxs_actuals : actualExpenses orphanTxs 2025 7 = [(some 5, 450)] := by
  simp +decide [actualExpenses, expensesInMonth, groupKeys, insertKey, sumBy,
    orphanTxs, mkTx]

/-- **C3**, counterexample.  Category key 5 is present in the month's
actual-expense aggregates and absent from the (empty) budget list, yet
`budgetComparison` returns no row at all: the synthesis step drops
keys whose category id does not resolve in the category collection. -/
theorem unresolved_category_not_synthesized :
    (some 5, (450 : ℚ)) ∈ actualExpenses orphanTxs 2025 7 ∧
    budgetComparison orphanTxs [] [] 7 2025 = some [] := by
  constructor
  · rw [orphanTxs_actuals]
    exact List.mem_singleton.mpr rfl
  · have h3 : synthRows [] [] [((some 5 : Option Nat), (450 : ℚ))] = [] := by
      decide
    simp only [budgetComparison, comparisonUnsorted, monthBudgets,
      List.filter_nil, budgetRows, orphanTxs_actuals, h3, List.nil_append,
      Option.map_some', List.mergeSort_nil]

/-- **C3** (corrected).  A synthesized row appears for every aggregate
key that is non-null, matches no budget, *and* resolves in the
category collection (null keys and unresolvable ids are dropped); its
fields are budgeted 0, actual = the aggregated total, difference =
-actual, percentageUsed 100, status "unbudgeted"; and a category with
a budget row — zero-amount included — is never reported as
"unbudgeted": budget rows carry status "within"/"exceeded" only, and
the synthesis step skips every budgeted category. -/
theorem unbudgeted_synthesis :
    (∀ cat total, (unbudgetedRow cat total).budgeted = 0 ∧
      (unbudgetedRow cat total).actual = total ∧
      (unbudgetedRow cat total).difference = -total ∧
      (unbudgetedRow cat total).percentage = 100 ∧
      (unbudgetedRow cat total).status = "unbudgeted") ∧
    (∀ txs cats budgets m y rows c total cat,
      budgetComparison txs cats budgets m y = some rows →
      (some c, total) ∈ actualExpenses txs y m →
      (∀ b ∈ monthBudgets budgets m y, b.categoryId ≠ c) →
      cats.find? (fun cc => decide (cc.id = c)) = some cat →
      unbudgetedRow cat total ∈ rows) ∧
    (∀ cats actuals b r, budgetRow cats actuals b = some r →
      r.status ≠ "unbudgeted") ∧
    (∀ txs cats budgets m y rows,
      budgetComparison txs cats budgets m y = some rows →
      ∀ r ∈ rows, r.status = "unbudgeted" →
        ∀ b ∈ monthBudgets budgets m y, b.categoryId ≠ r.category.id) := by
  refine ⟨fun cat total => ⟨rfl, rfl, rfl, rfl, rfl⟩, ?_, ?_, ?_⟩
  · intro txs cats budgets m y rows c total cat h hmem hnob hcat
    obtain ⟨l, hl, rfl⟩ := budgetComparison_inv _ _ _ _ _ _ h
    obtain ⟨rows0, _hb0, rfl⟩ := comparisonUnsorted_inv _ _ _ _ _ _ hl
    exact List.mem_mergeSort.mpr
      (List.mem_append_right _ (synthRows_mem _ _ _ _ _ _ hmem hnob hcat))
  · exact budgetRow_status_not_unbudgeted
  · intro txs cats budgets m y rows h r hr hst
    obtain ⟨l, hl, rfl⟩ := budgetComparison_inv _ _ _ _ _ _ h
    obtain ⟨rows0, hb0, rfl⟩ := comparisonUnsorted_inv _ _ _ _ _ _ hl
    rcases List.mem_append.mp (List.mem_mergeSort.mp hr) with hr0 | hrs
    · obtain ⟨b, _hb, hbr⟩ := budgetRows_mem_rev _ _ _ _ hb0 r hr0
      exact absurd hst (budgetRow_status_not_unbudgeted _ _ _ _ hbr)
    · exact (synthRows_category_not_budgeted _ _ _ r hrs).2

/-- Evaluation of the over-budget scenario with its budget removed:
the whole spend surfaces as one synthesized unbudgeted row. -/
theorem overTxs_no_budget_comparison :
    budgetComparison overTxs [foodCat] [] 7 2025 =
      some [unbudgetedRow foodCat 450] := by
  have h3 : synthRows [foodCat] [] [((some 7 : Option Nat), (450 : ℚ))] =
      [unbudgetedRow foodCat 450] := by decide
  simp only [budgetComparison, comparisonUnsorted, monthBudgets,
    List.filter_nil, budgetRows, overTxs_actuals, h3, List.nil_append,
    Option.map_some', List.mergeSort_singleton]

/-- Witness for C3: the synthesized row of the budgetless scenario is
in the response. -/
theorem unbudgeted_synthesis_witness :
    unbudgetedRow foodCat 450 ∈ [unbudgetedRow foodCat 450] :=
  unbudgeted_synthesis.2.1 overTxs [foodCat] [] 7 2025
    [unbudgetedRow foodCat 450] 7 450 foodCat overTxs_no_budget_comparison
    (by rw [overTxs_actuals]; exact List.mem_singleton.mpr rfl)
    (by intro b hb; exact absurd hb (List.not_mem_nil b))
    (by decide)

/-- **C9** (confirmed).  The budget-comparison response is sorted
descending by `percentageUsed`, and rows with equal `percentageUsed`
keep their order in the pre-sort `comparison` array (budget rows in
budget order first, then synthesized rows in aggregate order): the
`Array.prototype.sort` of ES2019 is stable. -/
theorem budget_comparison_sorted (txs : List Transaction) (cats : List Category)
    (budgets : List Budget) (m y : Nat) (rows : List ComparisonRow)
    (h : budgetComparison txs cats budgets m y = some rows) :
    List.Pairwise (fun a b => b.percentage ≤ a.percentage) rows ∧
    ∀ l, comparisonUnsorted txs cats budgets m y = some l →
      ∀ a b : ComparisonRow, a.percentage = b.percentage →
        [a, b].Sublist l → [a, b].Sublist rows := by
  obtain ⟨l0, hl0, rfl⟩ := budgetComparison_inv _ _ _ _ _ _ h
  constructor
  · have hs := List.sorted_mergeSort cmpRows_trans
      (fun a b => cmpRows_total a b) l0
    exact hs.imp (fun hab => of_decide_eq_true hab)
  · intro l hl a b heq hsub
    rw [hl] at hl0
    injection hl0 with hl0
    subst hl0
    have hab : cmpRows a b := by
      simp only [cmpRows, decide_eq_true_eq]
      exact le_of_eq heq.symm
    exact List.pair_sublist_mergeSort cmpRows_trans
      (fun a b => cmpRows_total a b) hab hsub

/-- Witness for C9 at the over-budget scenario. -/
theorem budget_comparison_sorted_witness :
    List.Pairwise (fun a b : ComparisonRow => b.percentage ≤ a.percentage)
      [overBudgetRow] :=
  (budget_comparison_sorted overTxs [foodCat] [foodBudget] 7 2025
    [overBudgetRow] overTxs_comparison).1

/-- **C6** (corrected).  A last-month group with *positive* total and
no current-month counterpart is reported with change -100 (the code
tests `last.total > 0`, so a nonzero-but-negative previous total is
dropped — see the counterexample); the delta list is ranked by
descending absolute change; and `significantChanges` is the first
`min 3 n` entries of that ranking (`slice(0, 3)`). -/
theorem category_deltas (txs : List Transaction) (cats : List Category)
    (now : CalDate) :
    (∀ l ∈ lastCatGroups txs cats now, 0 < l.total →
      (∀ c ∈ currentCatGroups txs cats now, c.key ≠ l.key) →
      ∃ ch ∈ categoryChanges txs cats now,
        ch.categoryId = l.key ∧ ch.currentAmount = 0 ∧
        ch.previousAmount = l.total ∧ ch.change = -100) ∧
    List.Pairwise (fun a b => |b.change| ≤ |a.change|)
      (categoryChanges txs cats now) ∧
    significantChanges txs cats now = (categoryChanges txs cats now).take 3 ∧
    (significantChanges txs cats now).length =
      min 3 (categoryChanges txs cats now).length := by
  refine ⟨?_, ?_, rfl, ?_⟩
  · intro l hl hpos hnone
    refine ⟨⟨l.key, l.name, 0, l.total, -100⟩, ?_, rfl, rfl, rfl, rfl⟩
    rw [categoryChanges, List.mem_mergeSort]
    simp only [categoryChangesUnsorted, List.mem_append, List.mem_filterMap]
    refine Or.inr ⟨l, hl, ?_⟩
    have hany : ((currentCatGroups txs cats now).any
        (fun c => decide (c.key = l.key))) = false := by
      simp only [List.any_eq_false, decide_eq_true_eq]
      exact hnone
    simp [hany, hpos]
  · have hs := List.sorted_mergeSort catChangeLE_trans
      (fun a b => catChangeLE_total a b)
      (categoryChangesUnsorted txs cats now)
    exact hs.imp (fun hab => of_decide_eq_true hab)
  · rw [significantChanges, List.length_take]

/-- A single previous-month expense of -80 (the repository stores
expenses as negative amounts, see the seed data). -/
def juneNegTxs : List Transaction :=
  [mkTx (-80) ⟨2025, 6, 10⟩ TxType.expense none]

/-- Evaluation of the last-month groups of `juneNegTxs`. -/
theorem juneNegTxs_lastGroups :
    lastCatGroups juneNegTxs [] julyNow = [⟨none, "Uncategorized", -80⟩] := by
  simp +decide [lastCatGroups, catSpendingGroups, lastMonthExpenses, prevYM,
    groupKeys, insertKey, sumBy, catGroupName, lookupCategoryInfo, categoryPath,
    juneNegTxs, julyNow, mkTx]

/-- Evaluation of the current-month groups of `juneNegTxs`. -/
theorem juneNegTxs_currentGroups :
    currentCatGroups juneNegTxs [] julyNow = [] := by
  decide

/-- **C6**, counterexample.  The (null) category group has previous
total -80 ≠ 0 and no current-period spending, yet `categoryChanges`
is empty — nothing is reported with change -100, because the code
requires `last.total > 0`, not `≠ 0`. -/
theorem negative_previous_delta_dropped :
    lastCatGroups juneNegTxs [] julyNow = [⟨none, "Uncategorized", -80⟩] ∧
    ((-80 : ℚ) ≠ 0) ∧
    currentCatGroups juneNegTxs [] julyNow = [] ∧
    categoryChanges juneNegTxs [] julyNow = [] ∧
    significantChanges juneNegTxs [] julyNow = [] := by
  have h3 : categoryChangesUnsorted juneNegTxs [] julyNow = [] := by
    simp only [categoryChangesUnsorted, juneNegTxs_lastGroups,
      juneNegTxs_currentGroups, List.filterMap_nil, List.nil_append,
      List.filterMap_cons, List.any_nil]
    norm_num
  have h4 : categoryChanges juneNegTxs [] julyNow = [] := by
    rw [categoryChanges, h3, List.mergeSort_nil]
  refine ⟨juneNegTxs_lastGroups, by norm_num, juneNegTxs_currentGroups, h4, ?_⟩
  rw [significantChanges, h4, List.take_nil]

/-- A single previous-month expense recorded with a positive amount. -/
def junePosTxs : List Transaction :=
  [mkTx 80 ⟨2025, 6, 10⟩ TxType.expense none]

/-- Evaluation of the last-month groups of `junePosTxs`. -/
theorem junePosTxs_lastGroups :
    lastCatGroups junePosTxs [] julyNow = [⟨none, "Uncategorized", 80⟩] := by
  simp +decide [lastCatGroups, catSpendingGroups, lastMonthExpenses, prevYM,
    groupKeys, insertKey, sumBy, catGroupName, lookupCategoryInfo, categoryPath,
    junePosTxs, julyNow, mkTx]

/-- Witness for C6: a positive previous-month total with no current
spending is reported with change -100. -/
theorem category_deltas_witness :
    ∃ ch ∈ categoryChanges junePosTxs [] julyNow,
      ch.categoryId = none ∧ ch.currentAmount = 0 ∧
        ch.previousAmount = 80 ∧ ch.change = -100 :=
  (category_deltas junePosTxs [] julyNow).1 ⟨none, "Uncategorized", 80⟩
    (by rw [junePosTxs_lastGroups]; exact List.mem_singleton.mpr rfl)
    (by norm_num)
    (by intro c hc; rw [show currentCatGroups junePosTxs [] julyNow = []
      from by decide] at hc; exact absurd hc (List.not_mem_nil c))

/-- Closed form of the category-summary groups: the missing
`$category` path collapses everything into at most one null-keyed
group carrying the Uncategorized sentinel. -/
theorem categorySummaryGroups_eq (cats : List Category)
    (matched : List Transaction) :
    categorySummaryGroups cats matched =
      if matched.isEmpty then []
      else [⟨none, "Uncategorized", "#6E7582",
        (matched.map (fun t => t.amount)).sum⟩] := by
  rw [categorySummaryGroups, groupKeys_categoryPath]
  by_cases h : matched.isEmpty
  · simp [h]
  · simp only [h, Bool.false_eq_true, if_false, List.map_cons, List.map_nil,
      sumBy_categoryPath]
    rfl

/-- Closed form of the GET /category-summary response. -/
theorem categorySummary_eq (txs : List Transaction) (cats : List Category)
    (start finish : CalDate) (ty : TxType) :
    categorySummary txs cats start finish ty =
      if (categoryMatch start finish ty txs).isEmpty then []
      else [⟨CatId.uncategorized, "Uncategorized", "#6E7582",
        ((categoryMatch start finish ty txs).map (fun t => t.amount)).sum⟩] := by
  rw [categorySummary, categorySummaryGroups_eq]
  by_cases h : (categoryMatch start finish ty txs).isEmpty
  · simp [h]
  · simp only [h, Bool.false_eq_true, if_false, List.mergeSort_singleton,
      List.map_cons, List.map_nil]
    rfl

/-- **C7** (corrected).  `categorySummary` returns at most one row
(the single null group of the missing `$category` path); the row's
`value` is the plain sum of all matched amounts — which *can* be zero,
see the counterexample — and the rows are (vacuously) strictly
descending by value. -/
theorem category_summary_rows (txs : List Transaction) (cats : List Category)
    (start finish : CalDate) (ty : TxType) :
    (categorySummary txs cats start finish ty).length ≤ 1 ∧
    List.Pairwise (fun a b => b.value < a.value)
      (categorySummary txs cats start finish ty) ∧
    ∀ r ∈ categorySummary txs cats start finish ty,
      r.value = ((categoryMatch start finish ty txs).map (fun t => t.amount)).sum
    := by
  rw [categorySummary_eq]
  by_cases h : (categoryMatch start finish ty txs).isEmpty
  · simp [h]
  · simp only [h, Bool.false_eq_true, if_false]
    refine ⟨by simp, List.pairwise_singleton _ _, ?_⟩
    intro r hr
    rw [List.mem_singleton.mp hr]

/-- A single zero-amount expense inside the queried range. -/
def zeroTxs : List Transaction := [mkTx 0 ⟨2025, 7, 10⟩ TxType.expense none]

/-- Evaluation of the match stage on `zeroTxs` over July 2025. -/
theorem zeroTxs_match :
    categoryMatch ⟨2025, 7, 1⟩ ⟨2025, 7, 31⟩ TxType.expense zeroTxs = zeroTxs := by
  decide

/-- Evaluation of the summary on `zeroTxs`: one row of value 0. -/
theorem zeroTxs_summary :
    categorySummary zeroTxs [] ⟨2025, 7, 1⟩ ⟨2025, 7, 31⟩ TxType.expense =
      [⟨CatId.uncategorized, "Uncategorized", "#6E7582", 0⟩] := by
  rw [categorySummary_eq, zeroTxs_match]
  norm_num [zeroTxs, mkTx]

/-- **C7**, counterexample.  A matched zero-amount expense produces a
row with `value = 0`: `categorySummary` *can* return a zero-valued
row, contrary to the claim. -/
theorem category_summary_returns_zero_row :
    categorySummary zeroTxs [] ⟨2025, 7, 1⟩ ⟨2025, 7, 31⟩ TxType.expense =
      [⟨CatId.uncategorized, "Uncategorized", "#6E7582", 0⟩] ∧
    ∃ r ∈ categorySummary zeroTxs [] ⟨2025, 7, 1⟩ ⟨2025, 7, 31⟩ TxType.expense,
      r.value = 0 := by
  refine ⟨zeroTxs_summary, ?_⟩
  rw [zeroTxs_summary]
  exact ⟨_, List.mem_singleton.mpr rfl, rfl⟩

/-- Witness for C7 at the zero-amount scenario. -/
theorem category_summary_rows_witness :
    (⟨CatId.uncategorized, "Uncategorized", "#6E7582", 0⟩ : CategoryRow).value =
      ((categoryMatch ⟨2025, 7, 1⟩ ⟨2025, 7, 31⟩ TxType.expense zeroTxs).map
        (fun t => t.amount)).sum :=
  (category_summary_rows zeroTxs [] ⟨2025, 7, 1⟩ ⟨2025, 7, 31⟩
    TxType.expense).2.2 ⟨CatId.uncategorized, "Uncategorized", "#6E7582", 0⟩
    (by rw [zeroTxs_summary]; exact List.mem_singleton.mpr rfl)

/-- Every per-category spending group of the insights pipelines sits
under the null key with the Uncategorized sentinel name. -/
theorem catSpendingGroups_key (cats : List Category)
    (period : List Transaction) :
    ∀ g ∈ catSpendingGroups cats period,
      g.key = none ∧ g.name = "Uncategorized" := by
  intro g hg
  rw [catSpendingGroups, groupKeys_categoryPath] at hg
  by_cases h : period.isEmpty
  · rw [if_pos h] at hg
    simp at hg
  · rw [if_neg h] at hg
    simp only [List.map_cons, List.map_nil, List.mem_singleton] at hg
    subst hg
    exact ⟨rfl, rfl⟩

/-- **C10** (confirmed).  The aggregations joining through the
(nonexistent) `category` field place every transaction under the null
group key: the insights per-category groups all have key `null` and
name "Uncategorized", and `categorySummary` returns at most one row,
carrying the Uncategorized sentinel (`id "uncategorized"`, name
"Uncategorized", color "#6E7582") whenever it is nonempty. -/
theorem category_field_mismatch (txs : List Transaction) (cats : List Category)
    (now start finish : CalDate) (ty : TxType) :
    (∀ g ∈ currentCatGroups txs cats now,
      g.key = none ∧ g.name = "Uncategorized") ∧
    (∀ g ∈ lastCatGroups txs cats now,
      g.key = none ∧ g.name = "Uncategorized") ∧
    (categorySummary txs cats start finish ty).length ≤ 1 ∧
    ∀ r ∈ categorySummary txs cats start finish ty,
      r.id = CatId.uncategorized ∧ r.name = "Uncategorized" ∧
        r.color = "#6E7582" := by
  refine ⟨catSpendingGroups_key _ _, catSpendingGroups_key _ _, ?_, ?_⟩
  · rw [categorySummary_eq]
    by_cases h : (categoryMatch start finish ty txs).isEmpty <;> simp [h]
  · intro r hr
    rw [categorySummary_eq] at hr
    by_cases h : (categoryMatch start finish ty txs).isEmpty
    · rw [if_pos h] at hr
      exact absurd hr (List.not_mem_nil r)
    · rw [if_neg h] at hr
      rw [List.mem_singleton.mp hr]
      exact ⟨rfl, rfl, rfl⟩

/-- Witness for C10: the last-month group of the positive June
scenario carries the null key and the sentinel name. -/
theorem category_field_mismatch_witness :
    (⟨none, "Uncategorized", 80⟩ : CatGroup).key = none ∧
    (⟨none, "Uncategorized", 80⟩ : CatGroup).name = "Uncategorized" :=
  (category_field_mismatch junePosTxs [] julyNow julyNow julyNow
    TxType.expense).2.1 ⟨none, "Uncategorized", 80⟩
    (by rw [junePosTxs_lastGroups]; exact List.mem_singleton.mpr rfl)

/-- A budget whose category id (5) resolves to no category document. -/
def danglingBudget : Budget := ⟨1, 5, 100, 7, 2025, ""⟩

/-- **C8**, counterexample.  Budget-comparison with a budget whose
`categoryId` does not resolve: `populate` leaves `null` and
`budget.categoryId._id` throws a TypeError (modelled as `none`), so a
computation *does* raise on missing reference data. -/
theorem dangling_budget_raises :
    budgetComparison [] [] [danglingBudget] 7 2025 = none := by
  rfl

/-- **C8** (corrected).  The division and empty-set policies hold —
`dayOfMonth ≥ 1` so the daily average never divides by zero,
`budgeted = 0` yields `percentageUsed 0`, a zero previous month yields
the fixed branch of each change metric (100 for the dashboard changes,
0 for the projected-spending change), and every aggregation over an
empty record set returns a well-formed zero-filled result — but the
claim's "no raise on missing reference data" fails: see the
counterexample. -/
theorem error_policies :
    (∀ txs (now : CalDate), 1 ≤ now.day →
      dailyAverage txs now = currentTotal txs now / (now.day : ℚ) ∧
      ((now.day : ℚ) ≠ 0)) ∧
    (∀ cats actuals (b : Budget) (r : ComparisonRow), b.amount = 0 →
      budgetRow cats actuals b = some r → r.percentage = 0) ∧
    (∀ txs now, prevMonthIncome txs now = 0 → incomeChange txs now = 100) ∧
    (∀ txs now, prevMonthExpense txs now = 0 → expenseChange txs now = 100) ∧
    (∀ txs now, lastMonthTotal txs now = 0 →
      projectedPercentageChange txs now = 0) ∧
    (∀ year, ∀ e ∈ fullYearData [] year,
      amountFor e TxType.expense = some 0 ∧
      amountFor e TxType.income = some 0) ∧
    (∀ cats start finish ty, categorySummary [] cats start finish ty = []) ∧
    (∀ now, currentTotal [] now = 0 ∧ currentCount [] now = 0) ∧
    (∀ y m ty, monthTypeSum [] y m ty = 0) ∧
    (∀ cats m y, budgetComparison [] cats [] m y = some []) ∧
    (∀ cats now, categoryChanges [] cats now = []) := by
  refine ⟨?_, ?_, ?_, ?_, ?_, ?_, ?_, ?_, ?_, ?_, ?_⟩
  · intro txs now h
    refine ⟨rfl, ?_⟩
    have : now.day ≠ 0 := by omega
    exact_mod_cast Nat.cast_ne_zero.mpr this
  · intro cats actuals b r h0 h
    rw [budgetRow] at h
    cases hc : cats.find? (fun c => decide (c.id = b.categoryId)) with
    | none => rw [hc] at h; exact Option.noConfusion h
    | some cat =>
      rw [hc] at h
      simp only [Option.some.injEq] at h
      subst h
      show min (if 0 < b.amount then _ / b.amount * 100 else 0) 100 = 0
      rw [h0]
      norm_num
  · intro txs now h
    simp [incomeChange, h]
  · intro txs now h
    simp [expenseChange, h]
  · intro txs now h
    simp [projectedPercentageChange, h]
  · intro year e he
    simp only [fullYearData, List.mem_map, List.mem_range] at he
    obtain ⟨i, _hi, rfl⟩ := he
    exact ⟨amountFor_fillMonth_zero _ _ _ _ rfl,
      amountFor_fillMonth_zero _ _ _ _ rfl⟩
  · intro cats start finish ty
    rw [categorySummary_eq]
    rfl
  · intro now
    exact ⟨rfl, rfl⟩
  · intro y m ty
    rfl
  · intro cats m y
    have h1 : budgetRows cats (actualExpenses [] y m) (monthBudgets [] m y) =
        some [] := rfl
    have h2 : synthRows cats (monthBudgets [] m y) (actualExpenses [] y m) =
        [] := rfl
    simp only [budgetComparison, comparisonUnsorted, h1, h2, List.nil_append,
      Option.map_some', List.mergeSort_nil]
  · intro cats now
    have hc : currentCatGroups [] cats now = [] := rfl
    have hl : lastCatGroups [] cats now = [] := rfl
    rw [categoryChanges]
    simp only [categoryChangesUnsorted, hc, hl, List.filterMap_nil,
      List.nil_append, List.mergeSort_nil]

/-- Witness for C8: at a day-3 reference instant the daily-average
divisor is nonzero. -/
theorem error_policies_witness :
    ((⟨2025, 7, 3⟩ : CalDate).day : ℚ) ≠ 0 :=
  (error_policies.1 [] ⟨2025, 7, 3⟩ (by norm_num)).2

end FinanceViz
